import Mathlib

/-!
Verification of the node server of `direct-csi` (`pkg/node/node.go`).

The node server implements the CSI node RPCs `NodeGetInfo`,
`NodeGetCapabilities` and `NodePublishVolume`.  The `pkg/volume` package
(volume registry, grant bookkeeping and the mount/bind executor) is external
to the excerpt; its operations are modelled from the specification and marked
as such in their doc comments.  All other definitions follow
`pkg/node/node.go` line by line.
-/

set_option autoImplicit false

namespace DirectCSI

/-- gRPC status codes used by the node server (`google.golang.org/grpc/codes`). -/
inductive Code where
  | invalidArgument
  | notFound
  | failedPrecondition
  | alreadyExists
  | internal
  deriving DecidableEq, Repr

/-- A gRPC status error: a code together with a message, as built by
`status.Error(code, msg)`. -/
structure GrpcStatus where
  code : Code
  message : String
  deriving DecidableEq, Repr

/-- An error value returned by the executor's bind/mount operations: either an
error that already carries a gRPC status (`status.FromError` succeeds on it),
or a plain OS-level error carrying only a message. -/
inductive ExecErr where
  | coded (s : GrpcStatus)
  | plain (msg : String)
  deriving DecidableEq, Repr

/-- The mount access type of a volume capability (`csi.VolumeCapability_MountVolume`):
a filesystem type and mount flags. -/
structure MountCap where
  fsType : String
  mountFlags : List String
  deriving DecidableEq, Repr

/-- A CSI volume capability as observed by `node.go`: `block` is true when
`GetBlock()` returns non-nil, `mount` is the payload of `GetMount()` when it
returns non-nil. -/
structure VolumeCapability where
  block : Bool
  mount : Option MountCap
  deriving DecidableEq, Repr

/-- The fields of `csi.NodePublishVolumeRequest` read by `NodePublishVolume`
(volume id, readonly flag, target path, staging target path, volume context,
volume capability).  A nil capability is `none`. -/
structure NodePublishVolumeRequest where
  volumeId : String
  readonly : Bool
  targetPath : String
  stagingTargetPath : String
  volumeContext : List (String × String)
  volumeCapability : Option VolumeCapability
  deriving DecidableEq, Repr

/-- Modelled from the spec: the access mode recorded in a grant — block
exposure, or filesystem mount exposure with its filesystem type and mount
flags. -/
inductive AccessType where
  | block
  | mount (fsType : String) (mountFlags : List String)
  deriving DecidableEq, Repr

/-- Modelled from the spec: the access parameters of a target-path grant
(access mode, read-only flag, volume context) recorded by a successful
publish. -/
structure Access where
  accessType : AccessType
  readOnly : Bool
  volumeContext : List (String × String)
  deriving DecidableEq, Repr

/-- Modelled from the spec: a volume record of the registry — identity,
staging path (empty until staged), capability flags, and the map from target
path to the access parameters granted there. -/
structure Volume where
  volumeID : String
  stagingPath : String
  blockAccess : Bool
  mountAccess : Bool
  targetPaths : List (String × Access)
  deriving DecidableEq, Repr

/-- Modelled from the spec: `vol.ContainsTargetPaths(targetPath)` returns the
access parameters recorded for `targetPath`, when a grant exists. -/
def Volume.ContainsTargetPaths (v : Volume) (path : String) : Option Access :=
  (v.targetPaths.find? (fun p => p.1 == path)).map Prod.snd

/-- Modelled from the spec: whether the volume's capability flags permit block
exposure. -/
def Volume.IsBlockAccessible (v : Volume) : Bool := v.blockAccess

/-- Modelled from the spec: whether the volume's capability flags permit
filesystem-mount exposure. -/
def Volume.IsMountAccessible (v : Volume) : Bool := v.mountAccess

/-- Modelled from the spec: `access.Matches(req)` — equality of the recorded
grant parameters with the request's, computed over access mode, read-only
flag, filesystem type, mount flags and volume context. -/
def Access.Matches (a : Access) (req : NodePublishVolumeRequest) : Bool :=
  a.readOnly == req.readonly &&
  a.volumeContext == req.volumeContext &&
  (match a.accessType, req.volumeCapability with
   | .block, some c => c.block && c.mount.isNone
   | .mount fs flags, some c =>
       !c.block &&
         (match c.mount with
          | some m => fs == m.fsType && flags == m.mountFlags
          | none => false)
   | _, none => false)

/-- The OS-level mount/bind facility behind the executor: an oracle giving the
outcome (no error, or some error) of each bind and each mount operation. -/
structure Executor where
  bindErr : String → Bool → List (String × String) → Option ExecErr
  mountErr : String → String → List String → Bool → List (String × String) → Option ExecErr

/-- Modelled from the spec: `vol.Bind(targetPath, ro, vCtx)` performs the bind
through the OS facility and, on success, records the grant (target path with
its access parameters) in the volume's grant map. -/
def Volume.Bind (ex : Executor) (v : Volume) (targetPath : String) (ro : Bool)
    (vCtx : List (String × String)) : Except ExecErr Volume :=
  match ex.bindErr targetPath ro vCtx with
  | some e => .error e
  | none => .ok { v with targetPaths := v.targetPaths ++ [(targetPath, ⟨.block, ro, vCtx⟩)] }

/-- Modelled from the spec: `vol.Mount(targetPath, fs, flags, ro, vCtx)`
performs the mount through the OS facility and, on success, records the grant
in the volume's grant map. -/
def Volume.Mount (ex : Executor) (v : Volume) (targetPath : String) (fs : String)
    (flags : List String) (ro : Bool) (vCtx : List (String × String)) :
    Except ExecErr Volume :=
  match ex.mountErr targetPath fs flags ro vCtx with
  | some e => .error e
  | none =>
      .ok { v with targetPaths := v.targetPaths ++ [(targetPath, ⟨.mount fs flags, ro, vCtx⟩)] }

/-- The volume registry: the catalogue of known volumes. -/
abbrev Registry := List Volume

/-- Modelled from the spec: `volume.GetVolume(ctx, vID)` — lookup of a volume
by id, signalling not-found for an unknown id. -/
def GetVolume (reg : Registry) (vID : String) : Option Volume :=
  reg.find? (fun v => v.volumeID == vID)

/-- Modelled from the spec: persisting a mutated volume record back into the
registry (the Go code mutates the shared record in place). -/
def updateVolume (reg : Registry) (v : Volume) : Registry :=
  reg.map (fun w => if w.volumeID == v.volumeID then v else w)

/-- The block-access branch of `NodePublishVolume` (node.go lines 131-143):
when the capability requests block access, check the volume's block
accessibility, invoke `Bind`, propagate an already-coded error unchanged and
wrap any other error as `Internal` with the original message. -/
def blockStep (ex : Executor) (vol : Volume) (cap : VolumeCapability)
    (targetPath : String) (ro : Bool) (vCtx : List (String × String)) :
    Except GrpcStatus Volume :=
  if cap.block then
    if !vol.IsBlockAccessible then
      .error ⟨.invalidArgument, "volume does not support block access"⟩
    else
      match Volume.Bind ex vol targetPath ro vCtx with
      | .error e =>
          .error (match e with
                  | .coded s => s
                  | .plain m => ⟨.internal, m⟩)
      | .ok v2 => .ok v2
  else .ok vol

/-- The mount-access branch of `NodePublishVolume` (node.go lines 145-160),
followed by the final success return: when the capability requests mount
access, check mount accessibility, invoke `Mount` with the request's
filesystem type and mount flags, with the same error-wrapping rule as the
block branch; on success persist the volume and return success. -/
def mountStep (ex : Executor) (reg : Registry) (vol : Volume) (cap : VolumeCapability)
    (targetPath : String) (ro : Bool) (vCtx : List (String × String)) :
    Except GrpcStatus Unit × Registry :=
  match cap.mount with
  | none => (.ok (), updateVolume reg vol)
  | some m =>
      if !vol.IsMountAccessible then
        (.error ⟨.invalidArgument, "volume does not support mount access"⟩, reg)
      else
        match Volume.Mount ex vol targetPath m.fsType m.mountFlags ro vCtx with
        | .error e =>
            (.error (match e with
                     | .coded s => s
                     | .plain m2 => ⟨.internal, m2⟩), reg)
        | .ok v3 => (.ok (), updateVolume reg v3)

/-- `NodePublishVolume` (node.go lines 91-162): validate the volume id, look
the volume up, compare the recorded staging path with the supplied one, short
circuit on an existing grant for the target path, validate the capability,
then run the block branch and the mount branch in sequence.  Returns the gRPC
outcome together with the registry state after the call. -/
def NodePublishVolume (ex : Executor) (reg : Registry) (req : NodePublishVolumeRequest) :
    Except GrpcStatus Unit × Registry :=
  if req.volumeId = "" then
    (.error ⟨.invalidArgument, "volume ID missing in request"⟩, reg)
  else
    match GetVolume reg req.volumeId with
    | none => (.error ⟨.notFound, "volume not found"⟩, reg)
    | some vol =>
      if vol.stagingPath ≠ req.stagingTargetPath then
        (.error ⟨.failedPrecondition, "volume staging target path is empty or incorrect"⟩, reg)
      else
        match vol.ContainsTargetPaths req.targetPath with
        | some access =>
            if access.Matches req then (.ok (), reg)
            else
              (.error ⟨.alreadyExists,
                "cannot reprovision volume at same path but different parameters"⟩, reg)
        | none =>
            match req.volumeCapability with
            | none => (.error ⟨.invalidArgument, "volume capability missing in request"⟩, reg)
            | some cap =>
                if cap.block && cap.mount.isSome then
                  (.error ⟨.invalidArgument,
                    "volume capability request contains both mount and block access"⟩, reg)
                else if !cap.block && cap.mount.isNone then
                  (.error ⟨.invalidArgument,
                    "volume capability request contains neither mount and block access"⟩, reg)
                else
                  match blockStep ex vol cap req.targetPath req.readonly req.volumeContext with
                  | .error s => (.error s, reg)
                  | .ok v2 =>
                      mountStep ex reg v2 cap req.targetPath req.readonly req.volumeContext

/-- `MaxVolumes` (node.go line 31). -/
def MaxVolumes : Nat := 10000

/-- The node server state (node.go lines 43-49): identity and topology labels
fixed at construction. -/
structure NodeServer where
  nodeID : String
  identity : String
  rack : String
  zone : String
  region : String
  deriving DecidableEq, Repr

/-- `NewNodeServer` (node.go lines 33-41): builds the server from the startup
configuration. -/
def NewNodeServer (identity nodeID rack zone region : String) : NodeServer :=
  { nodeID := nodeID, identity := identity, rack := rack, zone := zone, region := region }

/-- Modelled from the spec: the topology key for the driver identity
(`pkg/topology` is not in the excerpt). -/
def TopologyDriverIdentity : String := "topology.identity"

/-- Modelled from the spec: the topology key for the node. -/
def TopologyDriverNode : String := "topology.node"

/-- Modelled from the spec: the topology key for the rack. -/
def TopologyDriverRack : String := "topology.rack"

/-- Modelled from the spec: the topology key for the zone. -/
def TopologyDriverZone : String := "topology.zone"

/-- Modelled from the spec: the topology key for the region. -/
def TopologyDriverRegion : String := "topology.region"

/-- `csi.Topology`: the topology segments, as key/value pairs. -/
structure Topology where
  segments : List (String × String)
  deriving DecidableEq, Repr

/-- `csi.NodeGetInfoResponse`: node id, maximum volumes per node, accessible
topology. -/
structure NodeGetInfoResponse where
  nodeId : String
  maxVolumesPerNode : Nat
  accessibleTopology : Topology
  deriving DecidableEq, Repr

/-- `NodeGetInfo` (node.go lines 51-67): returns the node id, the constant
`MaxVolumes`, and topology segments built from the server's configured
identity, node, rack, zone and region labels.  The request message carries no
fields and is ignored. -/
def NodeGetInfo (n : NodeServer) (_req : Unit) : Except GrpcStatus NodeGetInfoResponse :=
  .ok { nodeId := n.nodeID
        maxVolumesPerNode := MaxVolumes
        accessibleTopology :=
          ⟨[(TopologyDriverIdentity, n.identity),
            (TopologyDriverNode, n.nodeID),
            (TopologyDriverRack, n.rack),
            (TopologyDriverZone, n.zone),
            (TopologyDriverRegion, n.region)]⟩ }

/-- The optional node RPC capability types advertised by the server
(`csi.NodeServiceCapability_RPC_Type` values used in node.go). -/
inductive NodeServiceCapabilityType where
  | volumeCondition
  | getVolumeStats
  | stageUnstageVolume
  deriving DecidableEq, Repr

/-- `NodeGetCapabilities` (node.go lines 69-89): returns the static capability
list {volume condition, get volume stats, stage/unstage volume}; both the
server state and the request are ignored. -/
def NodeGetCapabilities (_n : NodeServer) (_req : Unit) :
    Except GrpcStatus (List NodeServiceCapabilityType) :=
  .ok [.volumeCondition, .getVolumeStats, .stageUnstageVolume]

/-- An executor on which every bind and every mount succeeds. -/
def exAllOK : Executor :=
  { bindErr := fun _ _ _ => none, mountErr := fun _ _ _ _ _ => none }

/-- An executor whose mounts fail with a plain OS-level error. -/
def exMountFails : Executor :=
  { bindErr := fun _ _ _ => none,
    mountErr := fun _ _ _ _ _ => some (.plain "input-output error") }

/-- A staged volume permitting both access modes, with no grants. -/
def stagedVol : Volume :=
  { volumeID := "vol-1", stagingPath := "/staging/vol-1", blockAccess := true,
    mountAccess := true, targetPaths := [] }

/-- A registry holding the staged volume. -/
def stagedReg : Registry := [stagedVol]

/-- A mount-access publish request for the staged volume. -/
def mountReq : NodePublishVolumeRequest :=
  { volumeId := "vol-1", readonly := false, targetPath := "/target/pod-1",
    stagingTargetPath := "/staging/vol-1", volumeContext := [],
    volumeCapability := some { block := false, mount := some ⟨"xfs", []⟩ } }

/-- The staged volume with a read-only mount grant recorded at the target
path. -/
def grantedVol : Volume :=
  { stagedVol with targetPaths := [("/target/pod-1", ⟨.mount "xfs" [], true, []⟩)] }

/-- A registry holding the volume with the recorded grant. -/
def grantedReg : Registry := [grantedVol]

/-- An unstaged volume (empty staging path) that allows mount access. -/
def unstagedVol : Volume :=
  { volumeID := "vol-1", stagingPath := "", blockAccess := false,
    mountAccess := true, targetPaths := [] }

/-- A registry holding the unstaged volume. -/
def unstagedReg : Registry := [unstagedVol]

/-- A publish request for the unstaged volume that supplies an empty staging
target path. -/
def emptyStagingReq : NodePublishVolumeRequest :=
  { volumeId := "vol-1", readonly := false, targetPath := "/target/pod-1",
    stagingTargetPath := "", volumeContext := [],
    volumeCapability := some { block := false, mount := some ⟨"xfs", []⟩ } }

/-- A request whose capability specifies both block and mount access, naming a
volume absent from the registry. -/
def bothAccessReq : NodePublishVolumeRequest :=
  { volumeId := "vol-unknown", readonly := false, targetPath := "/target/pod-2",
    stagingTargetPath := "/staging/x", volumeContext := [],
    volumeCapability := some { block := true, mount := some ⟨"xfs", []⟩ } }

/- ### Helper lemmas -/

/-- A volume found by `GetVolume` carries the looked-up id. -/
theorem GetVolume_id (reg : Registry) (vID : String) (vol : Volume)
    (h : GetVolume reg vID = some vol) : vol.volumeID = vID := by
  unfold GetVolume at h
  have := List.find?_some h
  simpa using this

/-- Updating the registry with a volume of the same id makes lookup return the
updated record. -/
theorem GetVolume_updateVolume (reg : Registry) (vID : String) (vol v2 : Volume)
    (h : GetVolume reg vID = some vol) (hid : v2.volumeID = vol.volumeID) :
    GetVolume (updateVolume reg v2) vID = some v2 := by
  have hvID : v2.volumeID = vID := hid.trans (GetVolume_id reg vID vol h)
  unfold GetVolume at h ⊢
  unfold updateVolume
  induction reg with
  | nil => simp at h
  | cons w ws ih =>
    by_cases hw : w.volumeID = vID
    · rw [List.find?_cons_of_pos _ (by simp [hw])] at h
      obtain rfl : w = vol := by simpa using h
      simp only [List.map_cons]
      rw [if_pos (by simp [hvID, hw]), List.find?_cons_of_pos _ (by simp [hvID])]
    · rw [List.find?_cons_of_neg _ (by simp [hw])] at h
      simp only [List.map_cons]
      rw [if_neg (by simpa [hvID] using hw), List.find?_cons_of_neg _ (by simp [hw])]
      exact ih h

/-- Recording a grant at a fresh target path makes the grant visible. -/
theorem ContainsTargetPaths_record (v : Volume) (tp : String) (a : Access)
    (h : v.ContainsTargetPaths tp = none) :
    Volume.ContainsTargetPaths
      { v with targetPaths := v.targetPaths ++ [(tp, a)] } tp = some a := by
  unfold Volume.ContainsTargetPaths at h ⊢
  have hnone : v.targetPaths.find? (fun p => p.1 == tp) = none := by
    cases hf : v.targetPaths.find? (fun p => p.1 == tp) <;> simp [hf] at h ⊢
  simp [List.find?_append, hnone]

/-- Recording a grant at a fresh target path yields exactly one entry for it. -/
theorem grantEntries_record (v : Volume) (tp : String) (a : Access)
    (h : v.ContainsTargetPaths tp = none) :
    (({ v with targetPaths := v.targetPaths ++ [(tp, a)] } : Volume).targetPaths.filter
        (fun p => p.1 == tp)).length = 1 := by
  have hnone : v.targetPaths.find? (fun p => p.1 == tp) = none := by
    unfold Volume.ContainsTargetPaths at h
    cases hf : v.targetPaths.find? (fun p => p.1 == tp) <;> simp [hf] at h ⊢
  have hnil : v.targetPaths.filter (fun p => p.1 == tp) = [] :=
    List.filter_eq_nil_iff.mpr (fun x hx => by
      simpa using List.find?_eq_none.mp hnone x hx)
  simp [List.filter_append, hnil]

/-- The grant recorded by the block branch matches the publishing request. -/
theorem matches_block_self (req : NodePublishVolumeRequest) (cap : VolumeCapability)
    (hcap : req.volumeCapability = some cap) (hb : cap.block = true)
    (hm : cap.mount = none) :
    Access.Matches ⟨.block, req.readonly, req.volumeContext⟩ req = true := by
  simp [Access.Matches, hcap, hb, hm]

/-- The grant recorded by the mount branch matches the publishing request. -/
theorem matches_mount_self (req : NodePublishVolumeRequest) (cap : VolumeCapability)
    (m : MountCap) (hcap : req.volumeCapability = some cap) (hb : cap.block = false)
    (hm : cap.mount = some m) :
    Access.Matches ⟨.mount m.fsType m.mountFlags, req.readonly, req.volumeContext⟩ req
      = true := by
  simp [Access.Matches, hcap, hb, hm]

/-- Reduction of a fresh, valid publish: with the volume found, the staging
path matching, no existing grant, and a single-access capability the executor
accepts, the call returns success and persists the volume extended with the
new grant. -/
theorem publish_fresh_success (ex : Executor) (reg : Registry)
    (req : NodePublishVolumeRequest) (vol : Volume) (cap : VolumeCapability) (a : Access)
    (hid : req.volumeId ≠ "")
    (hget : GetVolume reg req.volumeId = some vol)
    (hstage : vol.stagingPath = req.stagingTargetPath)
    (hfresh : vol.ContainsTargetPaths req.targetPath = none)
    (hcap : req.volumeCapability = some cap)
    (hbranch :
      cap.block = true ∧ cap.mount = none ∧ vol.blockAccess = true ∧
        ex.bindErr req.targetPath req.readonly req.volumeContext = none ∧
        a = ⟨.block, req.readonly, req.volumeContext⟩
      ∨ cap.block = false ∧ vol.mountAccess = true ∧
        ∃ m, cap.mount = some m ∧
          ex.mountErr req.targetPath m.fsType m.mountFlags req.readonly
            req.volumeContext = none ∧
          a = ⟨.mount m.fsType m.mountFlags, req.readonly, req.volumeContext⟩) :
    NodePublishVolume ex reg req =
      (.ok (), updateVolume reg
        { vol with targetPaths := vol.targetPaths ++ [(req.targetPath, a)] }) := by
  rcases hbranch with ⟨hb, hm, hacc, hexec, ha⟩ | ⟨hb, hacc, m, hm, hexec, ha⟩ <;>
    subst ha <;>
    simp [NodePublishVolume, blockStep, mountStep, Volume.Bind, Volume.Mount,
      Volume.IsBlockAccessible, Volume.IsMountAccessible,
      hid, hget, hstage, hfresh, hcap, hb, hm, hacc, hexec]

/-- Reduction for the idempotent short-circuit: a matching grant at the target
path returns success with the registry untouched. -/
theorem publish_matching_grant (ex : Executor) (reg : Registry)
    (req : NodePublishVolumeRequest) (vol : Volume) (access : Access)
    (hid : req.volumeId ≠ "")
    (hget : GetVolume reg req.volumeId = some vol)
    (hstage : vol.stagingPath = req.stagingTargetPath)
    (hgrant : vol.ContainsTargetPaths req.targetPath = some access)
    (hmatch : access.Matches req = true) :
    NodePublishVolume ex reg req = (.ok (), reg) := by
  simp [NodePublishVolume, hid, hget, hstage, hgrant, hmatch]

/- ### Claim theorems -/

/-- Claim C1: a `NodePublishVolume` request that passes all validation and
whose executor bind or mount succeeds records the grant in the registry before
returning success — afterwards the volume's grant map contains an entry for
the request's target path carrying the request's access parameters. -/
theorem C1_publish_success_records_grant (ex : Executor) (reg : Registry)
    (req : NodePublishVolumeRequest) (vol : Volume) (cap : VolumeCapability)
    (hid : req.volumeId ≠ "")
    (hget : GetVolume reg req.volumeId = some vol)
    (hstage : vol.stagingPath = req.stagingTargetPath)
    (hfresh : vol.ContainsTargetPaths req.targetPath = none)
    (hcap : req.volumeCapability = some cap)
    (hbranch :
      cap.block = true ∧ cap.mount = none ∧ vol.blockAccess = true ∧
        ex.bindErr req.targetPath req.readonly req.volumeContext = none
      ∨ cap.block = false ∧ vol.mountAccess = true ∧
        ∃ m, cap.mount = some m ∧
          ex.mountErr req.targetPath m.fsType m.mountFlags req.readonly
            req.volumeContext = none) :
    (NodePublishVolume ex reg req).1 = .ok () ∧
    ∃ v2, GetVolume (NodePublishVolume ex reg req).2 req.volumeId = some v2 ∧
      ∃ a, v2.ContainsTargetPaths req.targetPath = some a ∧
        a.readOnly = req.readonly ∧ a.volumeContext = req.volumeContext := by
  rcases hbranch with ⟨hb, hm, hacc, hexec⟩ | ⟨hb, hacc, m, hm, hexec⟩
  · rw [publish_fresh_success ex reg req vol cap ⟨.block, req.readonly, req.volumeContext⟩
      hid hget hstage hfresh hcap (Or.inl ⟨hb, hm, hacc, hexec, rfl⟩)]
    exact ⟨rfl, _, GetVolume_updateVolume reg req.volumeId vol _ hget rfl,
      _, ContainsTargetPaths_record vol req.targetPath _ hfresh, rfl, rfl⟩
  · rw [publish_fresh_success ex reg req vol cap
      ⟨.mount m.fsType m.mountFlags, req.readonly, req.volumeContext⟩
      hid hget hstage hfresh hcap (Or.inr ⟨hb, hacc, m, hm, hexec, rfl⟩)]
    exact ⟨rfl, _, GetVolume_updateVolume reg req.volumeId vol _ hget rfl,
      _, ContainsTargetPaths_record vol req.targetPath _ hfresh, rfl, rfl⟩

/-- Claim C1 witness: a concrete fresh mount publish on a staged volume
records the grant. -/
theorem C1_witness :
    (NodePublishVolume exAllOK stagedReg mountReq).1 = .ok () ∧
    ∃ v2, GetVolume (NodePublishVolume exAllOK stagedReg mountReq).2
        mountReq.volumeId = some v2 ∧
      ∃ a, v2.ContainsTargetPaths mountReq.targetPath = some a ∧
        a.readOnly = mountReq.readonly ∧ a.volumeContext = mountReq.volumeContext :=
  C1_publish_success_records_grant exAllOK stagedReg mountReq stagedVol
    ⟨false, some ⟨"xfs", []⟩⟩ (by decide) rfl rfl rfl rfl
    (Or.inr ⟨rfl, rfl, ⟨"xfs", []⟩, rfl, rfl⟩)

/-- Claim C2: publishing twice with identical arguments succeeds both times;
the second call performs no bind or mount (its outcome is the same for every
executor and it leaves the registry untouched), and exactly one grant entry
exists for the target path afterwards. -/
theorem C2_publish_idempotent (ex : Executor) (reg : Registry)
    (req : NodePublishVolumeRequest) (vol : Volume) (cap : VolumeCapability)
    (hid : req.volumeId ≠ "")
    (hget : GetVolume reg req.volumeId = some vol)
    (hstage : vol.stagingPath = req.stagingTargetPath)
    (hfresh : vol.ContainsTargetPaths req.targetPath = none)
    (hcap : req.volumeCapability = some cap)
    (hbranch :
      cap.block = true ∧ cap.mount = none ∧ vol.blockAccess = true ∧
        ex.bindErr req.targetPath req.readonly req.volumeContext = none
      ∨ cap.block = false ∧ vol.mountAccess = true ∧
        ∃ m, cap.mount = some m ∧
          ex.mountErr req.targetPath m.fsType m.mountFlags req.readonly
            req.volumeContext = none) :
    (NodePublishVolume ex reg req).1 = .ok () ∧
    (∀ ex2, NodePublishVolume ex2 (NodePublishVolume ex reg req).2 req =
      (.ok (), (NodePublishVolume ex reg req).2)) ∧
    ∃ v2, GetVolume (NodePublishVolume ex reg req).2 req.volumeId = some v2 ∧
      (v2.targetPaths.filter (fun p => p.1 == req.targetPath)).length = 1 := by
  rcases hbranch with ⟨hb, hm, hacc, hexec⟩ | ⟨hb, hacc, m, hm, hexec⟩
  · rw [publish_fresh_success ex reg req vol cap ⟨.block, req.readonly, req.volumeContext⟩
      hid hget hstage hfresh hcap (Or.inl ⟨hb, hm, hacc, hexec, rfl⟩)]
    refine ⟨rfl, ?_, _, GetVolume_updateVolume reg req.volumeId vol _ hget rfl,
      grantEntries_record vol req.targetPath _ hfresh⟩
    intro ex2
    exact publish_matching_grant ex2 _ req _ _ hid
      (GetVolume_updateVolume reg req.volumeId vol _ hget rfl) hstage
      (ContainsTargetPaths_record vol req.targetPath _ hfresh)
      (matches_block_self req cap hcap hb hm)
  · rw [publish_fresh_success ex reg req vol cap
      ⟨.mount m.fsType m.mountFlags, req.readonly, req.volumeContext⟩
      hid hget hstage hfresh hcap (Or.inr ⟨hb, hacc, m, hm, hexec, rfl⟩)]
    refine ⟨rfl, ?_, _, GetVolume_updateVolume reg req.volumeId vol _ hget rfl,
      grantEntries_record vol req.targetPath _ hfresh⟩
    intro ex2
    exact publish_matching_grant ex2 _ req _ _ hid
      (GetVolume_updateVolume reg req.volumeId vol _ hget rfl) hstage
      (ContainsTargetPaths_record vol req.targetPath _ hfresh)
      (matches_mount_self req cap m hcap hb hm)

/-- Claim C2 witness: a concrete double publish — the second call succeeds for
every executor and leaves exactly one grant entry. -/
theorem C2_witness :
    (NodePublishVolume exAllOK stagedReg mountReq).1 = .ok () ∧
    (∀ ex2, NodePublishVolume ex2 (NodePublishVolume exAllOK stagedReg mountReq).2 mountReq =
      (.ok (), (NodePublishVolume exAllOK stagedReg mountReq).2)) ∧
    ∃ v2, GetVolume (NodePublishVolume exAllOK stagedReg mountReq).2
        mountReq.volumeId = some v2 ∧
      (v2.targetPaths.filter (fun p => p.1 == mountReq.targetPath)).length = 1 :=
  C2_publish_idempotent exAllOK stagedReg mountReq stagedVol
    ⟨false, some ⟨"xfs", []⟩⟩ (by decide) rfl rfl rfl rfl
    (Or.inr ⟨rfl, rfl, ⟨"xfs", []⟩, rfl, rfl⟩)

/-- Claim C3 counterexample: on an unstaged volume (empty recorded staging
path), a request that also supplies an empty staging path is not rejected with
`FailedPrecondition` — it proceeds, the mount runs and a grant is recorded. -/
theorem C3_counterexample :
    NodePublishVolume exAllOK unstagedReg emptyStagingReq =
      (.ok (), [{ unstagedVol with
        targetPaths := [("/target/pod-1", ⟨.mount "xfs" [], false, []⟩)] }]) := by
  rfl

/-- Claim C3 amended: for a known volume whose recorded staging path is empty,
any request supplying a non-empty staging path returns `FailedPrecondition`
and performs no bind or mount — the outcome is the same for every executor and
the registry is unchanged. -/
theorem C3_amended_unstaged_rejected (ex : Executor) (reg : Registry)
    (req : NodePublishVolumeRequest) (vol : Volume)
    (hid : req.volumeId ≠ "")
    (hget : GetVolume reg req.volumeId = some vol)
    (hunstaged : vol.stagingPath = "")
    (hreq : req.stagingTargetPath ≠ "") :
    NodePublishVolume ex reg req =
      (.error ⟨.failedPrecondition, "volume staging target path is empty or incorrect"⟩,
        reg) := by
  simp [NodePublishVolume, hid, hget, hunstaged, Ne.symm hreq]

/-- Claim C3 witness (amended claim): a concrete request with a non-empty
staging path against the unstaged volume is rejected. -/
theorem C3_witness :
    NodePublishVolume exAllOK unstagedReg
      { emptyStagingReq with stagingTargetPath := "/staging/vol-1" } =
      (.error ⟨.failedPrecondition, "volume staging target path is empty or incorrect"⟩,
        unstagedReg) :=
  C3_amended_unstaged_rejected exAllOK unstagedReg
    { emptyStagingReq with stagingTargetPath := "/staging/vol-1" } unstagedVol
    (by decide) rfl rfl (by decide)

/-- Claim C4: a publish whose target path already has a grant with parameters
differing from the request's returns `AlreadyExists`, and the registry — hence
the recorded grant for that path — is unchanged. -/
theorem C4_conflicting_republish (ex : Executor) (reg : Registry)
    (req : NodePublishVolumeRequest) (vol : Volume) (access : Access)
    (hid : req.volumeId ≠ "")
    (hget : GetVolume reg req.volumeId = some vol)
    (hstage : vol.stagingPath = req.stagingTargetPath)
    (hgrant : vol.ContainsTargetPaths req.targetPath = some access)
    (hdiff : access.Matches req = false) :
    NodePublishVolume ex reg req =
      (.error ⟨.alreadyExists, "cannot reprovision volume at same path but different parameters"⟩,
        reg) := by
  simp [NodePublishVolume, hid, hget, hstage, hgrant, hdiff]

/-- Claim C4 witness: republishing a path granted read-only with a
read-write request is rejected and the registry is unchanged. -/
theorem C4_witness :
    NodePublishVolume exAllOK grantedReg
      { mountReq with stagingTargetPath := "/staging/vol-1" } =
      (.error ⟨.alreadyExists, "cannot reprovision volume at same path but different parameters"⟩,
        grantedReg) :=
  C4_conflicting_republish exAllOK grantedReg
    { mountReq with stagingTargetPath := "/staging/vol-1" } grantedVol
    ⟨.mount "xfs" [], true, []⟩ (by decide) rfl rfl rfl (by decide)

/-- Claim C5 counterexample: a request with a both-access capability is not
rejected with `InvalidArgument` before any registry interaction — the volume
lookup happens first, and for an unknown volume the call returns `NotFound`. -/
theorem C5_counterexample :
    NodePublishVolume exAllOK [] bothAccessReq =
      (.error ⟨.notFound, "volume not found"⟩, []) := by
  rfl

/-- Claim C5 amended: when the earlier checks pass (volume found, staging path
matching, no grant at the target path), a capability specifying both block and
mount access is rejected with `InvalidArgument`, with no executor interaction
(same outcome for every executor) and no registry change; the volume lookup
and the grant read do occur before this validation. -/
theorem C5_amended_both_access_rejected (ex : Executor) (reg : Registry)
    (req : NodePublishVolumeRequest) (vol : Volume) (cap : VolumeCapability)
    (hid : req.volumeId ≠ "")
    (hget : GetVolume reg req.volumeId = some vol)
    (hstage : vol.stagingPath = req.stagingTargetPath)
    (hfresh : vol.ContainsTargetPaths req.targetPath = none)
    (hcap : req.volumeCapability = some cap)
    (hb : cap.block = true) (hm : cap.mount.isSome = true) :
    NodePublishVolume ex reg req =
      (.error ⟨.invalidArgument, "volume capability request contains both mount and block access"⟩,
        reg) := by
  simp [NodePublishVolume, hid, hget, hstage, hfresh, hcap, hb, hm]

/-- Claim C5 witness (amended claim): a both-access request against the staged
volume is rejected with `InvalidArgument` after the lookup. -/
theorem C5_witness :
    NodePublishVolume exAllOK stagedReg
      { bothAccessReq with volumeId := "vol-1", stagingTargetPath := "/staging/vol-1" } =
      (.error ⟨.invalidArgument, "volume capability request contains both mount and block access"⟩,
        stagedReg) :=
  C5_amended_both_access_rejected exAllOK stagedReg
    { bothAccessReq with volumeId := "vol-1", stagingTargetPath := "/staging/vol-1" }
    stagedVol ⟨true, some ⟨"xfs", []⟩⟩ (by decide) rfl rfl rfl rfl rfl rfl

/-- Claim C6: when the executor's bind (block access) or mount (mount access)
fails, an error already carrying a gRPC status is propagated to the caller
unchanged, and any other error is wrapped as `Internal` with the original
message verbatim; the registry is unchanged. -/
theorem C6_executor_error_mapping (ex : Executor) (reg : Registry)
    (req : NodePublishVolumeRequest) (vol : Volume) (cap : VolumeCapability) (e : ExecErr)
    (hid : req.volumeId ≠ "")
    (hget : GetVolume reg req.volumeId = some vol)
    (hstage : vol.stagingPath = req.stagingTargetPath)
    (hfresh : vol.ContainsTargetPaths req.targetPath = none)
    (hcap : req.volumeCapability = some cap)
    (hbranch :
      cap.block = true ∧ cap.mount = none ∧ vol.blockAccess = true ∧
        ex.bindErr req.targetPath req.readonly req.volumeContext = some e
      ∨ cap.block = false ∧ vol.mountAccess = true ∧
        ∃ m, cap.mount = some m ∧
          ex.mountErr req.targetPath m.fsType m.mountFlags req.readonly
            req.volumeContext = some e) :
    NodePublishVolume ex reg req =
      (.error (match e with
               | .coded s => s
               | .plain msg => ⟨.internal, msg⟩), reg) := by
  rcases hbranch with ⟨hb, hm, hacc, hexec⟩ | ⟨hb, hacc, m, hm, hexec⟩ <;>
    cases e <;>
    simp [NodePublishVolume, blockStep, mountStep, Volume.Bind, Volume.Mount,
      Volume.IsBlockAccessible, Volume.IsMountAccessible,
      hid, hget, hstage, hfresh, hcap, hb, hm, hacc, hexec]

/-- Claim C6 witness: a plain mount failure surfaces as `Internal` with the
original message, with the registry unchanged. -/
theorem C6_witness :
    NodePublishVolume exMountFails stagedReg mountReq =
      (.error ⟨.internal, "input-output error"⟩, stagedReg) :=
  C6_executor_error_mapping exMountFails stagedReg mountReq stagedVol
    ⟨false, some ⟨"xfs", []⟩⟩ (.plain "input-output error") (by decide) rfl rfl rfl rfl
    (Or.inr ⟨rfl, rfl, ⟨"xfs", []⟩, rfl, rfl⟩)

/-- Claim C7: when the target path already has a grant whose recorded
parameters match the request, the call returns success immediately — for every
executor, with the registry unchanged, and without reaching the capability
validation (no hypothesis constrains the request's capability field). -/
theorem C7_matching_grant_short_circuits (reg : Registry)
    (req : NodePublishVolumeRequest) (vol : Volume) (access : Access)
    (hid : req.volumeId ≠ "")
    (hget : GetVolume reg req.volumeId = some vol)
    (hstage : vol.stagingPath = req.stagingTargetPath)
    (hgrant : vol.ContainsTargetPaths req.targetPath = some access)
    (hmatch : access.Matches req = true) :
    ∀ ex, NodePublishVolume ex reg req = (.ok (), reg) :=
  fun ex => publish_matching_grant ex reg req vol access hid hget hstage hgrant hmatch

/-- Claim C7 witness: a request matching the recorded read-only grant returns
success immediately on an executor on which every mount fails. -/
theorem C7_witness :
    NodePublishVolume exMountFails grantedReg
      { mountReq with readonly := true } = (.ok (), grantedReg) :=
  C7_matching_grant_short_circuits grantedReg { mountReq with readonly := true }
    grantedVol ⟨.mount "xfs" [], true, []⟩ (by decide) rfl rfl rfl (by decide)
    exMountFails

/-- Claim C8: the staging gate is a pure string-equality test — when the
supplied staging path equals the recorded one (including both being empty),
the `FailedPrecondition` branch is not taken and processing reaches the
capability checks: with no grant at the target path and a nil capability the
call returns the capability-missing `InvalidArgument`, for every executor. -/
theorem C8_staging_gate_equality (reg : Registry)
    (req : NodePublishVolumeRequest) (vol : Volume)
    (hid : req.volumeId ≠ "")
    (hget : GetVolume reg req.volumeId = some vol)
    (hstage : vol.stagingPath = req.stagingTargetPath)
    (hfresh : vol.ContainsTargetPaths req.targetPath = none)
    (hcap : req.volumeCapability = none) :
    ∀ ex, NodePublishVolume ex reg req =
      (.error ⟨.invalidArgument, "volume capability missing in request"⟩, reg) := by
  intro ex
  simp [NodePublishVolume, hid, hget, hstage, hfresh, hcap]

/-- Claim C8 witness: with both the recorded and the supplied staging path
empty, the gate passes and the nil-capability check is reached. -/
theorem C8_witness :
    NodePublishVolume exAllOK unstagedReg
      { emptyStagingReq with volumeCapability := none } =
      (.error ⟨.invalidArgument, "volume capability missing in request"⟩, unstagedReg) :=
  C8_staging_gate_equality unstagedReg
    { emptyStagingReq with volumeCapability := none } unstagedVol
    (by decide) rfl rfl rfl rfl exAllOK

/-- Claim C9: `NodeGetInfo` returns, on every call and with no error, the same
response — the configured node id, the constant `MaxVolumes`, and topology
segments over exactly the fixed key set (driver identity, node, rack, zone,
region) populated from the startup configuration. -/
theorem C9_node_get_info_stable (identity nodeID rack zone region : String)
    (req1 req2 : Unit) :
    NodeGetInfo (NewNodeServer identity nodeID rack zone region) req1 =
      NodeGetInfo (NewNodeServer identity nodeID rack zone region) req2 ∧
    NodeGetInfo (NewNodeServer identity nodeID rack zone region) req1 =
      .ok { nodeId := nodeID, maxVolumesPerNode := MaxVolumes,
            accessibleTopology :=
              ⟨[(TopologyDriverIdentity, identity), (TopologyDriverNode, nodeID),
                (TopologyDriverRack, rack), (TopologyDriverZone, zone),
                (TopologyDriverRegion, region)]⟩ } :=
  ⟨rfl, rfl⟩

/-- Claim C10: `NodeGetCapabilities` returns, on every call and with no error,
exactly the static capability set {volume condition, get volume stats,
stage/unstage volume}, independent of the server state and of the request. -/
theorem C10_node_get_capabilities_static (n n2 : NodeServer) (req1 req2 : Unit) :
    NodeGetCapabilities n req1 =
      .ok [NodeServiceCapabilityType.volumeCondition,
           NodeServiceCapabilityType.getVolumeStats,
           NodeServiceCapabilityType.stageUnstageVolume] ∧
    NodeGetCapabilities n req1 = NodeGetCapabilities n2 req2 :=
  ⟨rfl, rfl⟩

end DirectCSI
